import Mathlib

/-!
Verification of the ENAR tutorial notebooks (a collection of teaching
notebooks on Python, Jupyter, pandas and PyMC3).  The repository-authored
code fragments that the specification makes claims about are embedded
below as Lean definitions over exact rational arithmetic, and the
specification's claims are settled as theorems about those definitions.

The embedded fragments come from the notebook code cells:
the numerical-integration example (trapezoidal, some_polynomial_function,
fast_polynomial, trapezodial_fast), the debugging example (div), the
survival-analysis data preparation (recoding, interval_bounds, death,
exposure), the Laplace-equation example (py_update, num_update, calc),
and the on-disk notebook document structure.
-/

namespace ENAR

/-! ## Numerical integration example

Source (notebook "A Primer on Python ..."):

    def trapezoidal(func, from_a, to_b, n_intervals):
        int_width = (to_b - from_a) / n_intervals
        sum_y = sum(func(from_a + i*int_width) for i in range(n_intervals))
        sum_y += 0.5 * (func(from_a) + func(to_b))
        return sum_y * int_width

Machine floats are modelled by exact rationals; the Python int
n_intervals is modelled by a natural number (the notebook only ever calls
it with positive literals).  For n_intervals = 0 Python raises
ZeroDivisionError; in the rational model the division yields 0, and every
theorem below assumes 1 <= n_intervals.
-/

/-- The notebook's trapezoidal-rule function, embedded from the source.
The sum ranges over i in range(n_intervals), i.e. i = 0, ..., n_intervals - 1,
exactly as in the Python code. -/
def trapezoidal (func : ℚ → ℚ) (from_a to_b : ℚ) (n_intervals : ℕ) : ℚ :=
  let int_width : ℚ := (to_b - from_a) / n_intervals
  let sum_y : ℚ := ∑ i in Finset.range n_intervals, func (from_a + i * int_width)
  (sum_y + (1/2) * (func from_a + func to_b)) * int_width

/-- Source: def some_polynomial_function(x): return 2 * x**2 + 3 * x + 1 -/
def some_polynomial_function (x : ℚ) : ℚ := 2 * x ^ 2 + 3 * x + 1

/-- Source (Cython cell): cdef inline double fast_polynomial(double x):
return 2*x*x + 3*x + 1 -/
def fast_polynomial (x : ℚ) : ℚ := 2 * x * x + 3 * x + 1

/-- One iteration of the loop body of trapezodial_fast: the state is the
pair (x, sumy), and each pass performs x += h; sumy += fast_polynomial(x). -/
def fastStep (h : ℚ) (s : ℚ × ℚ) : ℚ × ℚ :=
  (s.1 + h, s.2 + fast_polynomial (s.1 + h))

/-- The notebook's Cython variant, embedded from the source:

    cpdef trapezodial_fast(double a, double b, int n):
        h = (b-a)/n
        sumy = 0
        x=a
        for i in range(n):
            x += h
            sumy += fast_polynomial(x)
        sumy += 0.5*(fast_polynomial(a) + fast_polynomial(b))
        return sumy*h

(The misspelling "trapezodial" is the source's.) -/
def trapezodial_fast (a b : ℚ) (n : ℕ) : ℚ :=
  let h : ℚ := (b - a) / n
  let p : ℚ × ℚ := (List.range n).foldl (fun s _ => fastStep h s) (a, 0)
  (p.2 + (1/2) * (fast_polynomial a + fast_polynomial b)) * h

/-- The composite trapezoidal rule exactly as the specification's claim
states it: h * ((f(a) + f(b)) / 2 + the sum of f(a + i*h) over
i = 1, ..., n-1).  This definition follows the claim's words, to be
compared with the source-derived `trapezoidal`. -/
def compositeTrapezoidalRule (f : ℚ → ℚ) (a b : ℚ) (n : ℕ) : ℚ :=
  let h : ℚ := (b - a) / n
  h * ((f a + f b) / 2 + ∑ i in Finset.Ico 1 n, f (a + i * h))

/-! ## The debugging example

Source (notebook "IPython and Jupyter", the cell that demonstrates the
debugger magic):

    def div(x, y):
        return x/y

    div(1,0)

Python raises ZeroDivisionError when y == 0; the fallible behaviour is
embedded with an Except value. -/

/-- The notebook's div function.  It returns the quotient, except that a
zero divisor produces the ZeroDivisionError that Python raises for x/0. -/
def div (x y : ℚ) : Except String ℚ :=
  if y = 0 then Except.error "ZeroDivisionError" else Except.ok (x / y)

/-! ## Survival-analysis data preparation

Source (notebook "A Primer on Python ...", mastectomy example):

    df.event = df.event.astype(int)
    df.metastized = (df.metastized == 'yes').astype(int)

and (notebook "Bayesian Analysis using PyMC3"):

    vlbw = pd.read_csv('../data/vlbw.csv', index_col=0).dropna(axis=0, subset=['ivh', 'pneumo'])

A data frame is modelled as a list of rows; only the columns the code
touches are carried. -/

/-- A row of the mastectomy.csv frame as loaded: a survival time, a
boolean event indicator, and the metastized column as the string
"yes" / "no". -/
structure MastectomyRow where
  time : ℚ
  event : Bool
  metastized : String
deriving DecidableEq, Repr

/-- A mastectomy row after the notebook's recoding: both indicator
columns have become integers. -/
structure MastectomyRowRecoded where
  time : ℚ
  event : ℤ
  metastized : ℤ
deriving DecidableEq, Repr

/-- The notebook's recoding of one row: df.event.astype(int) turns the
boolean into 0/1, and (df.metastized == 'yes').astype(int) turns the
string into 1 exactly when it equals "yes". -/
def recodeRow (r : MastectomyRow) : MastectomyRowRecoded :=
  ⟨r.time, if r.event then 1 else 0, if r.metastized = "yes" then 1 else 0⟩

/-- The notebook's recoding applied to the whole frame. -/
def recodeDf (df : List MastectomyRow) : List MastectomyRowRecoded :=
  df.map recodeRow

/-- A row of the vlbw.csv frame; the two columns named in the dropna
subset are carried, with none standing for a missing (NaN) entry. -/
structure VlbwRow where
  ivh : Option ℚ
  pneumo : Option ℚ
deriving DecidableEq, Repr

/-- The notebook's dropna(axis=0, subset=['ivh', 'pneumo']): rows in
which either of the two columns is missing are dropped. -/
def vlbwDropna (df : List VlbwRow) : List VlbwRow :=
  df.filter (fun r => r.ivh.isSome && r.pneumo.isSome)

/-! ## The Poisson-trick restructuring of the Cox model

Source (notebook "A Primer on Python ...", survival example, run after
the recoding above):

    interval_length = 3
    interval_bounds = np.arange(0, df.time.max() + interval_length + 1, interval_length)
    n_intervals = interval_bounds.size - 1

    last_period = np.floor((df.time - 0.01) / interval_length).astype(int)
    death = np.zeros((n_patients, n_intervals))
    death[patients, last_period] = df.event

    exposure = np.greater_equal.outer(df.time, interval_bounds[:-1]) * interval_length
    exposure[patients, last_period] = df.time - interval_bounds[last_period]

Numpy float arrays are modelled as lists of exact rationals, and
matrices as lists of rows.  A zeros array followed by one scattered
assignment per row is modelled by building each row directly. -/

/-- np.arange(start, stop, step) for a positive step: the values
start + i*step for i = 0, ..., ceil((stop - start)/step) - 1. -/
def arange (start stop step : ℚ) : List ℚ :=
  (List.range (Int.toNat ⌈(stop - start) / step⌉)).map (fun i : ℕ => start + (i : ℚ) * step)

/-- Source: interval_length = 3 (months). -/
def interval_length : ℚ := 3

/-- df.time.max(): the maximum of the time column (the notebook only uses
it on the nonempty mastectomy frame, whose times are nonnegative). -/
def timeMax (df : List MastectomyRowRecoded) : ℚ :=
  (df.map (fun r => r.time)).foldr max 0

/-- Source: interval_bounds = np.arange(0, df.time.max() + interval_length + 1, interval_length). -/
def interval_bounds (df : List MastectomyRowRecoded) : List ℚ :=
  arange 0 (timeMax df + interval_length + 1) interval_length

/-- Source: n_intervals = interval_bounds.size - 1. -/
def n_intervals (df : List MastectomyRowRecoded) : ℕ :=
  (interval_bounds df).length - 1

/-- Source: np.floor((t - 0.01) / interval_length).astype(int), for one
patient's time t.  For the nonnegative times of the data the floor is
already nonnegative, so the cast to a natural number is exact. -/
def last_period (t : ℚ) : ℕ :=
  (⌊(t - 1/100) / interval_length⌋).toNat

/-- The death grid: an n_patients x n_intervals matrix of zeros with
death[p, last_period[p]] = df.event[p] scattered into it (row p holds the
event indicator in column last_period of that patient's time and zeros
elsewhere). -/
def death (df : List MastectomyRowRecoded) : List (List ℚ) :=
  df.map (fun r =>
    (List.range (n_intervals df)).map (fun j =>
      if j = last_period r.time then (r.event : ℚ) else 0))

/-- The exposure matrix: np.greater_equal.outer(df.time, interval_bounds[:-1])
times interval_length, with exposure[p, last_period[p]] overwritten by
df.time[p] - interval_bounds[last_period[p]].  interval_bounds[:-1] has
exactly n_intervals entries, so column j compares against
interval_bounds[j]. -/
def exposure (df : List MastectomyRowRecoded) : List (List ℚ) :=
  df.map (fun r =>
    (List.range (n_intervals df)).map (fun j =>
      if j = last_period r.time then
        r.time - (interval_bounds df).getD (last_period r.time) 0
      else if (interval_bounds df).getD j 0 ≤ r.time then interval_length else 0))

/-! ## The Laplace-equation example

Source (notebook "A Primer on Python ..."):

    dx = 0.1
    dy = 0.1
    dx2 = dx*dx
    dy2 = dy*dy

    def py_update(u):
        nx, ny = u.shape
        for i in range(1,nx-1):
            for j in range(1, ny-1):
                u[i,j] = ((u[i+1, j] + u[i-1, j]) * dy2 +
                          (u[i, j+1] + u[i, j-1]) * dx2) / (2*(dx2+dy2))

    def calc(N, Niter=100, func=py_update, args=()):
        u = np.zeros([N, N])
        u[0] = 1
        for i in range(Niter):
            func(u,*args)
        return u

    def num_update(u):
        u[1:-1,1:-1] = ((u[2:,1:-1]+u[:-2,1:-1])*dy2 +
                        (u[1:-1,2:] + u[1:-1,:-2])*dx2) / (2*(dx2+dy2))

An N x N float array is modelled as a function from a pair of natural
indices to a rational (entries at indices at or beyond N are phantom and
never constrained).  Since the shape is not recoverable from such a
function, the array's side length is passed explicitly where the Python
code reads u.shape.  py_update mutates the array entry by entry, so later
stencil reads see earlier writes of the same sweep; this sequencing is
kept by folding the single-entry update over the interior index pairs in
the Python loop order.  num_update's numpy slice assignment evaluates its
right-hand side against the old array before assigning, which the
simultaneous definition reflects. -/

/-- dx2 = dx*dx with dx = 0.1. -/
def dx2 : ℚ := (1/10) * (1/10)

/-- dy2 = dy*dy with dy = 0.1. -/
def dy2 : ℚ := (1/10) * (1/10)

/-- Assignment u[i,j] = v on the function model of the array. -/
def update2 (u : ℕ → ℕ → ℚ) (i j : ℕ) (v : ℚ) : ℕ → ℕ → ℚ :=
  fun a b => if a = i ∧ b = j then v else u a b

/-- The right-hand side written at u[i,j] by both update functions. -/
def laplaceStencil (u : ℕ → ℕ → ℚ) (i j : ℕ) : ℚ :=
  ((u (i+1) j + u (i-1) j) * dy2 + (u i (j+1) + u i (j-1)) * dx2) / (2 * (dx2 + dy2))

/-- The interior index pairs (i, j) with i in range(1, n-1) and j in
range(1, n-1), in the row-major order of the Python loops. -/
def interiorPairs (n : ℕ) : List (ℕ × ℕ) :=
  (List.range' 1 (n - 2)).flatMap (fun i => (List.range' 1 (n - 2)).map (fun j => (i, j)))

/-- The notebook's py_update on an n x n array: the in-place double loop,
as a fold of single-entry assignments over the interior pairs. -/
def py_update (n : ℕ) (u : ℕ → ℕ → ℚ) : ℕ → ℕ → ℚ :=
  (interiorPairs n).foldl (fun v p => update2 v p.1 p.2 (laplaceStencil v p.1 p.2)) u

/-- The notebook's num_update on an n x n array: every interior entry is
replaced simultaneously by the stencil of the old array. -/
def num_update (n : ℕ) (u : ℕ → ℕ → ℚ) : ℕ → ℕ → ℚ :=
  fun i j =>
    if 1 ≤ i ∧ i ≤ n - 2 ∧ 1 ≤ j ∧ j ≤ n - 2 then laplaceStencil u i j else u i j

/-- The initial array of calc: np.zeros([N, N]) followed by u[0] = 1,
i.e. the first row is one and everything else is zero. -/
def calcInit : ℕ → ℕ → ℚ :=
  fun i _ => if i = 0 then 1 else 0

/-- The notebook's calc (calc is a Lean keyword, hence the prime): build
the initial array and apply the update function Niter times.  The update
function receives the side length in place of reading u.shape. -/
def calc' (N Niter : ℕ) (func : ℕ → (ℕ → ℕ → ℚ) → ℕ → ℕ → ℚ) : ℕ → ℕ → ℚ :=
  (func N)^[Niter] calcInit

/-! ## The on-disk notebook document format

Each notebook file of the repository is a JSON document.  The JSON value
grammar is embedded as an inductive type, and each of the repository's
four notebook documents is embedded at the structural level: the
top-level keys in their on-disk order, the nbformat version numbers, and
the full cells array with each cell's cell_type in order.  Cell sources,
outputs and metadata objects are abstracted to empty objects; the claim
under verification only concerns the top-level structure. -/

/-- A JSON value. -/
inductive Json where
  | null : Json
  | bool (b : Bool) : Json
  | num (n : Int) : Json
  | str (s : String) : Json
  | arr (elems : List Json) : Json
  | obj (fields : List (String × Json)) : Json

/-- Look a key up in a JSON object (none on non-objects). -/
def Json.lookup : Json → String → Option Json
  | Json.obj fields, k => (fields.find? (fun f => f.1 = k)).map (fun f => f.2)
  | _, _ => none

/-- A notebook cell, abstracted to its cell_type field. -/
def cellOfType (t : String) : Json :=
  Json.obj [("cell_type", Json.str t)]

/-- A notebook document with the given cells: the top-level object with
keys cells, metadata, nbformat, nbformat_minor, in the on-disk order
shared by all four documents (all have nbformat 4, nbformat_minor 2). -/
def notebookDoc (cellTypes : List String) : Json :=
  Json.obj [("cells", Json.arr (cellTypes.map cellOfType)),
            ("metadata", Json.obj []),
            ("nbformat", Json.num 4),
            ("nbformat_minor", Json.num 2)]

/-- The document is a JSON object whose cells key holds an array. -/
def hasCellsList (j : Json) : Bool :=
  match j.lookup "cells" with
  | some (Json.arr _) => true
  | _ => false

/-- Cell types, in order, of the notebook "A Primer on Python for
Statistical Programming and Data Science" (92 cells). -/
def primer_doc_cellTypes : List String :=
  ["markdown", "markdown", "markdown", "markdown", "markdown", "markdown", "code", "code",
   "markdown", "markdown", "code", "markdown", "code", "code", "markdown", "markdown",
   "markdown", "code", "markdown", "code", "code", "markdown", "code", "markdown", "code",
   "markdown", "markdown", "code", "code", "code", "markdown", "code", "code", "code",
   "markdown", "code", "markdown", "code", "code", "markdown", "code", "markdown", "code",
   "markdown", "code", "markdown", "code", "code", "markdown", "code", "markdown", "code",
   "code", "markdown", "code", "markdown", "code", "code", "markdown", "markdown", "markdown",
   "code", "markdown", "code", "markdown", "code", "code", "markdown", "code", "markdown",
   "markdown", "code", "markdown", "code", "code", "markdown", "markdown", "code", "markdown",
   "code", "code", "markdown", "code", "code", "markdown", "code", "code", "markdown", "code",
   "code", "markdown", "markdown"]

/-- Cell types, in order, of the notebook "IPython and Jupyter" (77 cells). -/
def ipython_doc_cellTypes : List String :=
  ["markdown", "markdown", "markdown", "markdown", "markdown", "code", "markdown", "markdown",
   "markdown", "code", "code", "markdown", "code", "code", "code", "code", "markdown", "code",
   "markdown", "code", "markdown", "code", "markdown", "code", "markdown", "code", "markdown",
   "code", "markdown", "code", "markdown", "code", "code", "markdown", "code", "markdown",
   "code", "markdown", "code", "code", "markdown", "code", "code", "markdown", "code",
   "markdown", "code", "code", "code", "code", "markdown", "code", "markdown", "code",
   "markdown", "code", "code", "code", "code", "markdown", "markdown", "code", "markdown",
   "markdown", "code", "markdown", "code", "code", "markdown", "code", "markdown", "code",
   "markdown", "code", "markdown", "markdown", "markdown"]

/-- Cell types, in order, of the notebook "Bayesian Analysis using PyMC3"
(75 cells). -/
def bayes_doc_cellTypes : List String :=
  ["markdown", "markdown", "code", "code", "markdown", "code", "markdown", "code", "markdown",
   "markdown", "code", "markdown", "code", "code", "markdown", "markdown", "code", "code",
   "code", "markdown", "markdown", "code", "markdown", "code", "code", "markdown", "code",
   "markdown", "code", "markdown", "code", "markdown", "code", "markdown", "code", "code",
   "code", "markdown", "code", "code", "code", "code", "markdown", "markdown", "code",
   "markdown", "code", "markdown", "code", "markdown", "code", "markdown", "code", "markdown",
   "code", "markdown", "code", "code", "code", "markdown", "code", "markdown", "code",
   "markdown", "code", "markdown", "code", "markdown", "code", "markdown", "code", "code",
   "markdown", "code", "markdown"]

/-- Cell types, in order, of the notebook "Data Preparation using pandas"
(123 cells). -/
def dataprep_doc_cellTypes : List String :=
  ["markdown", "markdown", "code", "markdown", "code", "markdown", "code", "code", "markdown",
   "code", "markdown", "code", "code", "code", "markdown", "code", "markdown", "code",
   "markdown", "code", "markdown", "code", "code", "markdown", "code", "markdown", "markdown",
   "code", "markdown", "code", "markdown", "code", "code", "markdown", "code", "markdown",
   "markdown", "markdown", "code", "markdown", "code", "markdown", "markdown", "markdown",
   "code", "markdown", "code", "markdown", "code", "code", "code", "markdown", "code",
   "markdown", "code", "markdown", "code", "markdown", "code", "markdown", "code", "markdown",
   "markdown", "code", "markdown", "code", "markdown", "code", "markdown", "code", "markdown",
   "code", "markdown", "code", "markdown", "markdown", "code", "markdown", "code", "markdown",
   "code", "code", "markdown", "code", "markdown", "code", "markdown", "code", "markdown",
   "code", "markdown", "code", "markdown", "code", "markdown", "markdown", "code", "markdown",
   "code", "markdown", "code", "markdown", "code", "markdown", "code", "markdown", "code",
   "markdown", "code", "markdown", "code", "markdown", "code", "markdown", "code", "markdown",
   "code", "markdown", "code", "markdown", "code", "code", "markdown"]

/-- The repository's four notebook documents, each a single JSON
document on disk. -/
def notebookDocuments : List Json :=
  [notebookDoc primer_doc_cellTypes,
   notebookDoc ipython_doc_cellTypes,
   notebookDoc bayes_doc_cellTypes,
   notebookDoc dataprep_doc_cellTypes]

/-- The number of cells a document's top-level cells array holds (0 when
the key is absent or not an array). -/
def cellCount (j : Json) : ℕ :=
  match j.lookup "cells" with
  | some (Json.arr l) => l.length
  | _ => 0

/-- A small concrete recoded mastectomy frame used to exercise the
survival-analysis restructuring: two patients with times 4 and 7 months,
the first an observed death with metastization. -/
def exampleSurvivalDf : List MastectomyRowRecoded :=
  [⟨4, 1, 1⟩, ⟨7, 0, 0⟩]

/-! ## Helper lemmas -/

/-- Unfolding lemma for trapezoidal. -/
theorem trapezoidal_def (f : ℚ → ℚ) (a b : ℚ) (n : ℕ) :
    trapezoidal f a b n =
      (∑ i in Finset.range n, f (a + i * ((b - a) / n)) + (1/2) * (f a + f b))
        * ((b - a) / n) := rfl

/-- Unfolding lemma for compositeTrapezoidalRule. -/
theorem compositeTrapezoidalRule_def (f : ℚ → ℚ) (a b : ℚ) (n : ℕ) :
    compositeTrapezoidalRule f a b n =
      ((b - a) / n) * ((f a + f b) / 2 + ∑ i in Finset.Ico 1 n, f (a + i * ((b - a) / n))) := rfl

/-- Unfolding lemma for trapezodial_fast. -/
theorem trapezodial_fast_def (a b : ℚ) (n : ℕ) :
    trapezodial_fast a b n =
      (((List.range n).foldl (fun s _ => fastStep ((b - a) / n) s) (a, 0)).2
          + (1/2) * (fast_polynomial a + fast_polynomial b)) * ((b - a) / n) := rfl

/-- The Cython fast_polynomial and the Python some_polynomial_function
denote the same rational function. -/
theorem fast_polynomial_eq (x : ℚ) : fast_polynomial x = some_polynomial_function x := by
  unfold fast_polynomial some_polynomial_function
  ring

/-- After n passes of the trapezodial_fast loop the running point is
a + n*h and the accumulator holds the sum of fast_polynomial(a + (i+1)*h)
over i in range(n). -/
theorem fastLoop_spec (h a : ℚ) (n : ℕ) :
    (List.range n).foldl (fun s _ => fastStep h s) (a, 0) =
      (a + n * h, ∑ i in Finset.range n, fast_polynomial (a + ((i + 1 : ℕ) : ℚ) * h)) := by
  induction n with
  | zero => simp
  | succ m ih =>
    rw [List.range_succ, List.foldl_append, ih, List.foldl_cons, List.foldl_nil]
    simp only [fastStep, Finset.sum_range_succ]
    have key : a + (m : ℚ) * h + h = a + ((m + 1 : ℕ) : ℚ) * h := by push_cast; ring
    rw [key]

/-- The source's sum over range(n) splits off its i = 0 term, leaving the
interior sum of the composite rule: trapezoidal equals the rule plus an
extra h * f(a). -/
theorem trapezoidal_split (f : ℚ → ℚ) (a b : ℚ) (n : ℕ) (hn : 1 ≤ n) :
    trapezoidal f a b n = compositeTrapezoidalRule f a b n + (b - a) / n * f a := by
  obtain ⟨m, rfl⟩ : ∃ m, n = m + 1 := ⟨n - 1, (Nat.succ_pred_eq_of_pos hn).symm⟩
  rw [trapezoidal_def, compositeTrapezoidalRule_def, Finset.sum_range_succ',
    Finset.sum_Ico_eq_sum_range]
  simp only [Nat.add_sub_cancel, Nat.cast_zero, zero_mul, add_zero]
  have hsum :
      ∑ i in Finset.range m, f (a + ((1 + i : ℕ) : ℚ) * ((b - a) / ((m + 1 : ℕ) : ℚ)))
        = ∑ i in Finset.range m, f (a + ((i + 1 : ℕ) : ℚ) * ((b - a) / ((m + 1 : ℕ) : ℚ))) := by
    refine Finset.sum_congr rfl (fun i _ => ?_)
    rw [Nat.add_comm 1 i]
  rw [hsum]
  ring

/-- trapezodial_fast equals the composite rule plus an extra h * f(b):
its loop visits a + h, ..., a + n*h, splitting off the i = n term a + n*h = b. -/
theorem trapezodial_fast_split (a b : ℚ) (n : ℕ) (hn : 1 ≤ n) :
    trapezodial_fast a b n =
      compositeTrapezoidalRule some_polynomial_function a b n
        + (b - a) / n * some_polynomial_function b := by
  obtain ⟨m, rfl⟩ : ∃ m, n = m + 1 := ⟨n - 1, (Nat.succ_pred_eq_of_pos hn).symm⟩
  have hm : ((m + 1 : ℕ) : ℚ) ≠ 0 := by positivity
  rw [trapezodial_fast_def, fastLoop_spec, compositeTrapezoidalRule_def]
  simp only [fast_polynomial_eq, Finset.sum_range_succ, Finset.sum_Ico_eq_sum_range,
    Nat.add_sub_cancel]
  have hsum :
      ∑ i in Finset.range m,
          some_polynomial_function (a + ((1 + i : ℕ) : ℚ) * ((b - a) / ((m + 1 : ℕ) : ℚ)))
        = ∑ i in Finset.range m,
            some_polynomial_function (a + ((i + 1 : ℕ) : ℚ) * ((b - a) / ((m + 1 : ℕ) : ℚ))) := by
    refine Finset.sum_congr rfl (fun i _ => ?_)
    rw [Nat.add_comm 1 i]
  rw [hsum]
  have hlast : a + ((m + 1 : ℕ) : ℚ) * ((b - a) / ((m + 1 : ℕ) : ℚ)) = b := by
    push_cast
    field_simp
  rw [hlast]
  ring

/-- Reading an entry other than the assigned one sees the old array. -/
theorem update2_ne (u : ℕ → ℕ → ℚ) (i j : ℕ) (v : ℚ) (a b : ℕ)
    (h : ¬(a = i ∧ b = j)) : update2 u i j v a b = u a b := by
  simp [update2, h]

/-- Every pair visited by the py_update loops is interior: both indices
lie in range(1, n-1). -/
theorem mem_interiorPairs {n : ℕ} {p : ℕ × ℕ} (hp : p ∈ interiorPairs n) :
    (1 ≤ p.1 ∧ p.1 < 1 + (n - 2)) ∧ (1 ≤ p.2 ∧ p.2 < 1 + (n - 2)) := by
  simp only [interiorPairs, List.mem_flatMap, List.mem_map] at hp
  obtain ⟨i, hi, j, hj, rfl⟩ := hp
  exact ⟨List.mem_range'_1.mp hi, List.mem_range'_1.mp hj⟩

/-- A fold of single-entry assignments leaves any entry that none of the
assignments targets unchanged. -/
theorem foldl_update_frame (ps : List (ℕ × ℕ)) (u : ℕ → ℕ → ℚ) (i j : ℕ)
    (h : ∀ p ∈ ps, ¬(i = p.1 ∧ j = p.2)) :
    ps.foldl (fun v p => update2 v p.1 p.2 (laplaceStencil v p.1 p.2)) u i j = u i j := by
  induction ps generalizing u with
  | nil => rfl
  | cons p ps ih =>
    rw [List.foldl_cons, ih _ (fun q hq => h q (List.mem_cons_of_mem _ hq))]
    exact update2_ne _ _ _ _ _ _ (h p (List.mem_cons_self _ _))

/-- py_update leaves every boundary entry unchanged. -/
theorem py_update_frame (n : ℕ) (u : ℕ → ℕ → ℚ) (i j : ℕ)
    (hb : i = 0 ∨ i = n - 1 ∨ j = 0 ∨ j = n - 1) :
    py_update n u i j = u i j := by
  refine foldl_update_frame _ _ _ _ (fun p hp => ?_)
  have hmem := mem_interiorPairs hp
  omega

/-- num_update leaves every boundary entry unchanged. -/
theorem num_update_frame (n : ℕ) (u : ℕ → ℕ → ℚ) (i j : ℕ)
    (hb : i = 0 ∨ i = n - 1 ∨ j = 0 ∨ j = n - 1) :
    num_update n u i j = u i j := by
  unfold num_update
  rw [if_neg]
  omega

/-- Iterating any boundary-preserving update function from the calc
initial array keeps every boundary entry at its initial value. -/
theorem calc_boundary_invariant (N Niter : ℕ)
    (func : ℕ → (ℕ → ℕ → ℚ) → ℕ → ℕ → ℚ)
    (hfunc : ∀ u i j, (i = 0 ∨ i = N - 1 ∨ j = 0 ∨ j = N - 1) → func N u i j = u i j)
    (i j : ℕ) (hb : i = 0 ∨ i = N - 1 ∨ j = 0 ∨ j = N - 1) :
    calc' N Niter func i j = calcInit i j := by
  induction Niter with
  | zero => rfl
  | succ k ih =>
    unfold calc'
    rw [Function.iterate_succ_apply', hfunc _ _ _ hb]
    exact ih

/-- Mapping a constant function yields a replicate of the list's length. -/
theorem map_const_eq_replicate {α β : Type} (l : List α) (b : β) :
    l.map (fun _ => b) = List.replicate l.length b := by
  induction l with
  | nil => rfl
  | cons a l ih => simp [ih, List.replicate_succ]

/-- An arange starting at 0 is the arithmetic progression step * j over
the indices of its own length. -/
theorem arange_zero_step (stop step : ℚ) :
    arange 0 stop step
      = (List.range (arange 0 stop step).length).map (fun j : ℕ => step * (j : ℚ)) := by
  unfold arange
  rw [List.length_map, List.length_range]
  refine List.map_congr_left (fun i _ => ?_)
  ring

/-- Evaluation of the interval partition on the example frame: times up
to 7 give bounds 0, 3, 6, 9. -/
theorem interval_bounds_example : interval_bounds exampleSurvivalDf = [0, 3, 6, 9] := by
  have h : (⌈(((7:ℚ) + 3 + 1) - 0) / 3⌉ : ℤ) = 4 := by
    rw [Int.ceil_eq_iff]
    norm_num
  simp [interval_bounds, arange, timeMax, interval_length, exampleSurvivalDf]
  norm_num at h ⊢
  rw [h]
  simp [List.range_succ]
  norm_num

/-- A patient with time 4 dies in interval 1 (months 3 to 6). -/
theorem last_period_four : last_period 4 = 1 := by
  have h : (⌊((4:ℚ) - 1/100) / 3⌋ : ℤ) = 1 := by
    rw [Int.floor_eq_iff]
    norm_num
  simp only [last_period, interval_length]
  rw [h]
  rfl

/-- A patient with time 7 is censored in interval 2 (months 6 to 9). -/
theorem last_period_seven : last_period 7 = 2 := by
  have h : (⌊((7:ℚ) - 1/100) / 3⌋ : ℤ) = 2 := by
    rw [Int.floor_eq_iff]
    norm_num
  simp only [last_period, interval_length]
  rw [h]
  rfl

/-! ## Claims -/

/-- C1 (counterexample): the claim that no function authored in this
repository computes a numerical result by an original algorithm of its
own fails on trapezoidal: the repository's own summation loop, embedded
above with no external calls, evaluates its approximation of the
integral of 2x^2+3x+1 over [1,5] with one interval to the number 168. -/
theorem trapezoidal_computes_a_numerical_result :
    trapezoidal some_polynomial_function 1 5 1 = 168 := by
  rw [trapezoidal_def]
  simp [some_polynomial_function, Finset.sum_range_succ]
  norm_num

/-- C1 (amended): MCMC sampling, posterior summarization, plotting and
data import are delegated to external libraries, but the repository does
author original numerical algorithms of its own: the trapezoidal
integrator and the iterative Laplace solver (py_update inside calc)
compute concrete numerical results from repository-authored arithmetic
alone. -/
theorem repository_authored_numerical_algorithms :
    trapezoidal some_polynomial_function 1 5 4 = 130 ∧ calc' 3 1 py_update 1 1 = 1/4 := by
  constructor
  · rw [trapezoidal_def]
    simp [some_polynomial_function, Finset.sum_range_succ]
    norm_num
  · simp [calc', py_update, interiorPairs, calcInit, update2, laplaceStencil, dx2, dy2]
    norm_num

/-- C2 (counterexample): the claim that no repository-authored function
itself raises an error for any input fails on div: div(1, 0), which the
notebook deliberately executes to demonstrate the debugger, raises
ZeroDivisionError from the repository-authored body x/y. -/
theorem div_raises_on_zero_divisor :
    div 1 0 = Except.error "ZeroDivisionError" := rfl

/-- C2 (amended): the repository contains no try/except, so it never
catches or transforms an exception, but repository-authored functions do
raise: div returns the quotient for every nonzero divisor and raises
ZeroDivisionError on a zero divisor (the notebook executes div(1, 0) on
purpose to demonstrate the %debug magic). -/
theorem div_error_characterization (x y : ℚ) (hy : y ≠ 0) :
    div x y = Except.ok (x / y) ∧ div x 0 = Except.error "ZeroDivisionError" := by
  constructor
  · simp [div, hy]
  · simp [div]

/-- Witness for C2 at x = 1, y = 2. -/
theorem div_error_characterization_witness :
    (2 : ℚ) ≠ 0 ∧ (div 1 2 = Except.ok (1 / 2) ∧ div 1 0 = Except.error "ZeroDivisionError") :=
  ⟨by norm_num, div_error_characterization 1 2 (by norm_num)⟩

/-- C3 (counterexample): the claim that no repository code alters the
values, types, or rows of a loaded dataset fails: the vlbw dropna call
removes a row whose ivh entry is missing (a two-row frame becomes a
one-row frame), and the mastectomy recoding replaces the string value
"yes" of the metastized column by the integer 1. -/
theorem notebooks_alter_loaded_frames :
    vlbwDropna [⟨some 1, some 0⟩, ⟨none, some 1⟩] = [⟨some 1, some 0⟩]
      ∧ (recodeRow ⟨10, true, "yes"⟩).metastized = 1 :=
  ⟨rfl, rfl⟩

/-- C3 (amended): after import the notebooks do transform the loaded
datasets: the mastectomy recoding keeps every row and the time column
unchanged while retyping the indicator columns, and the vlbw dropna call
keeps a sublist of the rows, namely those rows in which both the ivh and
pneumo entries are present. -/
theorem dataset_cleaning_characterized (df : List MastectomyRow) (vdf : List VlbwRow) :
    (recodeDf df).length = df.length
    ∧ (recodeDf df).map MastectomyRowRecoded.time = df.map MastectomyRow.time
    ∧ List.Sublist (vlbwDropna vdf) vdf
    ∧ (vlbwDropna vdf).all (fun r => r.ivh.isSome && r.pneumo.isSome) = true := by
  refine ⟨?_, ?_, ?_, ?_⟩
  · simp [recodeDf]
  · rw [recodeDf, List.map_map]
    rfl
  · exact List.filter_sublist _
  · rw [List.all_eq_true]
    intro r hr
    simp [vlbwDropna, List.mem_filter] at hr
    simp [hr.2.1, hr.2.2]

/-- C4 (counterexample): the claim that no repository-authored code
computes the interval partition, the death-count grid, or the exposure
matrix fails: on a two-patient frame (times 4 and 7 months, the first an
observed death) the repository code embedded above computes the interval
partition [0, 3, 6, 9], the death grid [[0,1,0],[0,0,0]] and the
exposure matrix [[3,1,0],[3,3,1]]. -/
theorem poisson_trick_data_computed :
    interval_bounds exampleSurvivalDf = [0, 3, 6, 9]
    ∧ death exampleSurvivalDf = [[0, 1, 0], [0, 0, 0]]
    ∧ exposure exampleSurvivalDf = [[3, 1, 0], [3, 3, 1]] := by
  have hn : n_intervals exampleSurvivalDf = 3 := by
    unfold n_intervals
    rw [interval_bounds_example]
    rfl
  refine ⟨interval_bounds_example, ?_, ?_⟩
  · unfold death
    rw [hn]
    simp [exampleSurvivalDf, last_period_four, last_period_seven, List.range_succ]
  · unfold exposure
    rw [hn, interval_bounds_example]
    simp [exampleSurvivalDf, last_period_four, last_period_seven, interval_length,
      List.range_succ]
    norm_num

/-- C4 (amended): the Poisson likelihood, the priors and the MCMC
sampler are provided by the external library, but the data restructuring
of the Poisson-trick reparameterization is computed by
repository-authored code: the interval partition is the arithmetic
progression with step interval_length over its own index range, and the
death and exposure matrices are patient-by-interval grids with one row
per patient and n_intervals columns per row. -/
theorem poisson_trick_structure (df : List MastectomyRowRecoded) :
    interval_bounds df
      = (List.range (interval_bounds df).length).map (fun j : ℕ => interval_length * (j : ℚ))
    ∧ (death df).map List.length = List.replicate df.length (n_intervals df)
    ∧ (exposure df).map List.length = List.replicate df.length (n_intervals df) := by
  refine ⟨arange_zero_step _ _, ?_, ?_⟩
  · have h : (death df).map List.length = df.map (fun _ => n_intervals df) := by
      unfold death
      rw [List.map_map]
      refine List.map_congr_left (fun r _ => ?_)
      simp
    rw [h, map_const_eq_replicate]
  · have h : (exposure df).map List.length = df.map (fun _ => n_intervals df) := by
      unfold exposure
      rw [List.map_map]
      refine List.map_congr_left (fun r _ => ?_)
      simp
    rw [h, map_const_eq_replicate]

/-- C5: in exact arithmetic trapezoidal does not equal the composite
trapezoidal rule the claim states: its sum runs over i = 0, ..., n-1 and
so includes the left endpoint a second time, making the result exceed
the rule by exactly h * f(from_a).  At func = const 1, from_a = 0,
to_b = 1, n_intervals = 1 the code returns 2 while the rule gives 1. -/
theorem trapezoidal_deviates_from_composite_rule (f : ℚ → ℚ) (a b : ℚ) (n : ℕ)
    (hn : 1 ≤ n) :
    trapezoidal f a b n = compositeTrapezoidalRule f a b n + (b - a) / n * f a :=
  trapezoidal_split f a b n hn

/-- Witness for C5 at the failing input: the constant-1 function on
[0, 1] with one interval.  There trapezoidal gives 2 and the rule 1, the
deviation being h * f(0) = 1. -/
theorem trapezoidal_deviates_witness :
    1 ≤ 1
    ∧ trapezoidal (fun _ => (1:ℚ)) 0 1 1
        = compositeTrapezoidalRule (fun _ => (1:ℚ)) 0 1 1 + (1 - 0) / ((1:ℕ) : ℚ) * 1 :=
  ⟨le_refl 1, trapezoidal_deviates_from_composite_rule (fun _ => (1:ℚ)) 0 1 1 (le_refl 1)⟩

/-- C6 (counterexample): at a = 1, b = 5, n = 1 the Cython variant
returns 408 while trapezoidal on the same polynomial returns 168: the
difference h * (f(b) - f(a)) = 4 * 60 = 240 is not zero, so the two
implementations do not return the same value. -/
theorem trapezodial_fast_differs_from_trapezoidal :
    trapezodial_fast 1 5 1 ≠ trapezoidal some_polynomial_function 1 5 1 := by
  have h1 : trapezodial_fast 1 5 1 = 408 := by
    rw [trapezodial_fast_def]
    simp [fastStep, fast_polynomial, List.range_succ]
    norm_num
  have h2 : trapezoidal some_polynomial_function 1 5 1 = 168 := by
    rw [trapezoidal_def]
    simp [some_polynomial_function, Finset.sum_range_succ]
    norm_num
  rw [h1, h2]
  norm_num

/-- C6 (amended): in exact arithmetic trapezodial_fast exceeds
trapezoidal(some_polynomial_function, a, b, n) by exactly
h * (f(b) - f(a)) with h = (b - a) / n: the fast loop visits
a + h, ..., a + n*h where trapezoidal's sum visits a, ..., a + (n-1)*h,
so they agree exactly when f(a) = f(b). -/
theorem trapezodial_fast_vs_trapezoidal (a b : ℚ) (n : ℕ) (hn : 1 ≤ n) :
    trapezodial_fast a b n
      = trapezoidal some_polynomial_function a b n
        + (b - a) / n * (some_polynomial_function b - some_polynomial_function a) := by
  rw [trapezodial_fast_split a b n hn, trapezoidal_split some_polynomial_function a b n hn]
  ring

/-- Witness for C6 at a = 1, b = 5, n = 1. -/
theorem trapezodial_fast_vs_trapezoidal_witness :
    1 ≤ 1
    ∧ trapezodial_fast 1 5 1
        = trapezoidal some_polynomial_function 1 5 1
          + (5 - 1) / ((1:ℕ) : ℚ)
            * (some_polynomial_function 5 - some_polynomial_function 1) :=
  ⟨le_refl 1, trapezodial_fast_vs_trapezoidal 1 5 1 (le_refl 1)⟩

/-- C7: py_update and num_update write only interior entries, leaving
every boundary entry of u unchanged; consequently calc with either
update function returns a matrix whose entire first row is 1 and whose
other boundary entries are 0. -/
theorem updates_preserve_boundary :
    (∀ n u i j, (i = 0 ∨ i = n - 1 ∨ j = 0 ∨ j = n - 1) → py_update n u i j = u i j)
    ∧ (∀ n u i j, (i = 0 ∨ i = n - 1 ∨ j = 0 ∨ j = n - 1) → num_update n u i j = u i j)
    ∧ (∀ N Niter i j, 1 ≤ N → i < N → j < N →
        (i = 0 ∨ i = N - 1 ∨ j = 0 ∨ j = N - 1) →
        calc' N Niter py_update i j = (if i = 0 then 1 else 0)
          ∧ calc' N Niter num_update i j = (if i = 0 then 1 else 0)) := by
  refine ⟨py_update_frame, num_update_frame, fun N Niter i j _ _ _ hb => ⟨?_, ?_⟩⟩
  · rw [calc_boundary_invariant N Niter py_update (fun u a b h => py_update_frame N u a b h)
      i j hb]
    rfl
  · rw [calc_boundary_invariant N Niter num_update (fun u a b h => num_update_frame N u a b h)
      i j hb]
    rfl

/-- Witness for C7 at N = 3, Niter = 1: the top boundary entry (0, 1) is
untouched by both update functions, and after one calc iteration the
bottom boundary entry (2, 1) is 0. -/
theorem updates_preserve_boundary_witness :
    ((0 : ℕ) = 0 ∨ (0 : ℕ) = 3 - 1 ∨ (1 : ℕ) = 0 ∨ (1 : ℕ) = 3 - 1)
    ∧ py_update 3 calcInit 0 1 = calcInit 0 1
    ∧ num_update 3 calcInit 0 1 = calcInit 0 1
    ∧ (1 ≤ 3 ∧ (2 : ℕ) < 3 ∧ (1 : ℕ) < 3
        ∧ ((2 : ℕ) = 0 ∨ (2 : ℕ) = 3 - 1 ∨ (1 : ℕ) = 0 ∨ (1 : ℕ) = 3 - 1))
    ∧ calc' 3 1 py_update 2 1 = (if (2 : ℕ) = 0 then 1 else 0)
    ∧ calc' 3 1 num_update 2 1 = (if (2 : ℕ) = 0 then 1 else 0) :=
  ⟨Or.inl rfl,
   updates_preserve_boundary.1 3 calcInit 0 1 (Or.inl rfl),
   updates_preserve_boundary.2.1 3 calcInit 0 1 (Or.inl rfl),
   ⟨by decide, by decide, by decide, by decide⟩,
   (updates_preserve_boundary.2.2 3 1 2 1 (by decide) (by decide) (by decide)
     (by decide)).1,
   (updates_preserve_boundary.2.2 3 1 2 1 (by decide) (by decide) (by decide)
     (by decide)).2⟩

/-- C8: each of the repository's four notebook documents is a single
JSON document whose top level holds a list of cells; their cells arrays
have 92, 77, 75 and 123 entries respectively. -/
theorem notebook_documents_wellformed :
    notebookDocuments.all hasCellsList = true
    ∧ notebookDocuments.map cellCount = [92, 77, 75, 123] :=
  ⟨rfl, rfl⟩

end ENAR
